import Mathlib

/-!
Shallow embedding of `aqchat`'s `CodeMemoryPipeline`
(`src/aqchat/pipelines/code_memory_pipeline.py`) and proofs about it.

Paths are modelled as lists of components of the already-resolved absolute
path (`Path(...).expanduser().resolve()` always yields an absolute path, so
the `p.is_absolute()` test in `update_files` is always true).  The
filesystem is modelled as a flat listing of file and directory entries with
absolute paths; `Path.rglob("*")` is modelled at its interface as the
sub-listing of all entries strictly below a root — pathlib's `rglob` has no
pruning, so entries inside any subdirectory, ignored or not, appear in it.

The Chroma vector store is an external dependency and is modelled at the
interface the code uses: a list of chunks, `delete(where={"source": s})`
removes the chunks whose `source` metadatum equals `s`, `add_documents`
appends, `from_documents` builds a store holding exactly the given chunks.
-/

namespace Aqchat

/-- Scalar Python values that appear in retrieval settings and metadata. -/
inductive PyVal where
  | vstr (s : String)
  | vint (n : Int)
  | vfloat (q : Rat)
  deriving DecidableEq, Repr

/-- Metadata values: either a simple scalar or a complex (nested) value,
which `filter_complex_metadata` strips. -/
inductive MVal where
  | scalar (v : PyVal)
  | complex
  deriving DecidableEq, Repr

/-- True on the metadata values that the persisted store can index. -/
def MVal.isSimple : MVal → Bool
  | .scalar _ => true
  | .complex => false

/-- Python exceptions raised by the pipeline code. -/
inductive PyError where
  | runtimeError (msg : String)
  | valueError (msg : String)
  | typeError
  | keyError (key : String)
  | fileNotFoundError (msg : String)
  deriving DecidableEq, Repr

/-- A path as a list of components. -/
abbrev PyPath := List String

/-- Rendering of an absolute path, as in Python `str(Path("/a/b"))`. -/
def absStr (p : PyPath) : String := "/" ++ String.intercalate "/" p

/-- Rendering of a relative path, as in Python `str(rel_path)`. -/
def relStr : PyPath → String
  | [] => "."
  | p => String.intercalate "/" p

/-- A LangChain `Document`: page content plus a metadata dict. -/
structure Doc where
  content : String
  meta : List (String × MVal)
  deriving DecidableEq, Repr

/-- A chunk produced by the splitter; same shape as a `Document`. -/
structure Chunk where
  content : String
  meta : List (String × MVal)
  deriving DecidableEq, Repr

/-- The vector store's contents: the list of chunks it holds. -/
abbrev Store := List Chunk

/-- Whether this chunk's `source` metadatum equals the string `s`
(the match used by `delete(where={"source": str(rel_path)})`). -/
def Chunk.sourceIs (c : Chunk) (s : String) : Bool :=
  c.meta.lookup "source" == some (.scalar (.vstr s))

/-- `Chroma.delete(where={"source": s})`: drop every chunk tagged `s`. -/
def Store.deleteWhereSource (vs : Store) (s : String) : Store :=
  vs.filter (fun c => !c.sourceIs s)

/-- `filter_complex_metadata`: strip non-scalar metadata entries from each
chunk (the chunks themselves are kept). -/
def filterComplexMetadata (cs : List Chunk) : List Chunk :=
  cs.map (fun c => { c with meta := c.meta.filter (fun kv => kv.2.isSimple) })

/-- Python `str.strip()`: remove leading and trailing whitespace
(character-level implementation so that concrete evaluation reduces). -/
def py_strip (s : String) : String :=
  String.mk (((s.toList.dropWhile Char.isWhitespace).reverse.dropWhile
    Char.isWhitespace).reverse)

/-- The post-filter applied in both `ingest` and `update_files`:
keep only chunks with `len(chunk.page_content.strip()) > 3`. -/
def length_filter (cs : List Chunk) : List Chunk :=
  cs.filter (fun c => 3 < (py_strip c.content).length)

/-- Modelled from the spec: `CodeBoundaryTextSplitter.split_documents`
(`pipelines/boundary_splitter.py`, not present under `src/`).  Per the
spec, each chunk's content is produced from the document's text and its
metadata (hence `source_path`) is inherited from the document.  The way
content is cut is irrelevant to the pipeline-level claims, so it is kept
as an arbitrary parameter `splitContent`. -/
def split_documents (splitContent : Doc → List String) (docs : List Doc) : List Chunk :=
  docs.flatMap (fun d => (splitContent d).map (fun t => { content := t, meta := d.meta }))

/-- A filesystem entry with its absolute resolved path. -/
inductive Entry where
  | file (path : PyPath) (content : String)
  | dir (path : PyPath)
  deriving DecidableEq, Repr

/-- The path of an entry. -/
def Entry.path : Entry → PyPath
  | .file p _ => p
  | .dir p => p

/-- `Path.exists()`: some entry (file or directory) has this path. -/
def pathExists (fs : List Entry) (p : PyPath) : Bool :=
  fs.any (fun e => e.path == p)

/-- Content of the file at `p`, if a file entry with that path exists. -/
def lookupFile : List Entry → PyPath → Option String
  | [], _ => none
  | .file q c :: rest, p => if q == p then some c else lookupFile rest p
  | .dir _ :: rest, p => lookupFile rest p

/-- `Path.name`: the final path component. -/
def lastName (p : PyPath) : String := p.getLastD ""

/-- Index of the last dot in a list of characters, if any. -/
def lastDotIdx : List Char → Option Nat
  | [] => none
  | c :: cs =>
    match lastDotIdx cs with
    | some i => some (i + 1)
    | none => if c == '.' then some 0 else none

/-- `Path.suffix` of a file name per pathlib: the part of the name from
its last dot on, empty when that dot is leading (hidden file) or
trailing. -/
def py_suffix (name : String) : String :=
  let cs := name.toList
  match lastDotIdx cs with
  | none => ""
  | some i => if i == 0 || i == cs.length - 1 then "" else String.mk (cs.drop i)

/-- Python `str.lower()` (ASCII, which covers the extension strings). -/
def py_lower (s : String) : String :=
  String.mk (s.toList.map Char.toLower)

/-- `TextLoader(...).load()` plus the `doc.metadata["source"] = str(rel_path)`
assignment of `_load_single_file`: one document whose `source` metadatum is
the relative path string. -/
def mk_doc (rel : PyPath) (content : String) : Doc :=
  { content := content, meta := [("source", .scalar (.vstr (relStr rel)))] }

/-- `_load_single_file`: read the file at `absP`; a file that cannot be
read makes the loader raise. -/
def load_single_file (fs : List Entry) (absP rel : PyPath) : Except PyError (List Doc) :=
  match lookupFile fs absP with
  | some c => .ok [mk_doc rel c]
  | none => .error (.runtimeError ("Error loading " ++ absStr absP))

/-- The fixed `ignore_dirs` set of `_load_repo`. -/
def ignore_dirs : List String := [".git", ".venv", "__pycache__", "dist", "build", ".idea"]

/-- `root.rglob("*")`: every entry strictly below `root`, ignored
directories and their contents included (pathlib offers no pruning). -/
def rglob (fs : List Entry) (root : PyPath) : List Entry :=
  fs.filter (fun e => root.isPrefixOf e.path && !(e.path == root))

/-- One iteration of the `_load_repo` loop body.  The `continue` on an
ignored directory skips only that directory entry itself — which the
`is_file` test below would skip anyway — so it never suppresses the files
inside the ignored directory, which `rglob` also yields. -/
def process_entry (includeExt : List String) (root : PyPath) : Entry → List Doc
  | .dir p => if ignore_dirs.contains (lastName p) then [] else []
  | .file p c =>
      if includeExt.contains (py_lower (py_suffix (lastName p))) then
        [mk_doc (p.drop root.length) c]
      else []

/-- `_load_repo`: documents for every eligible file yielded by `rglob`. -/
def load_repo (includeExt : List String) (fs : List Entry) (root : PyPath) : List Doc :=
  (rglob fs root).flatMap (process_entry includeExt root)

/-- The query-time retriever handle built by `_build_chain`: records which
`search_type` and which `search_kwargs` were handed to `as_retriever`. -/
structure Retriever where
  searchType : Option PyVal
  searchKwargs : Option (List (String × PyVal))
  deriving DecidableEq, Repr

/-- Python dict indexing `d[k]`: `KeyError` when the key is absent. -/
def dict_get (d : List (String × PyVal)) (k : String) : Except PyError PyVal :=
  match d.lookup k with
  | some v => .ok v
  | none => .error (.keyError k)

/-- `_build_chain`: build the retriever from the current retrieval
settings, or raise when no vector store is loaded. -/
def build_chain (settings : List (String × PyVal)) (vs : Option Store) :
    Except PyError Retriever :=
  match vs with
  | none => .error (.runtimeError "Vector store must be initialised before building the retriever.")
  | some _ =>
    match dict_get settings "ret_strat" with
    | .error e => .error e
    | .ok retStrat =>
      if retStrat == .vstr "mmr" then
        match dict_get settings "k" with
        | .error e => .error e
        | .ok kv =>
          match dict_get settings "fetch_k" with
          | .error e => .error e
          | .ok fv =>
            match dict_get settings "lambda_mult" with
            | .error e => .error e
            | .ok lv =>
              .ok { searchType := some retStrat,
                    searchKwargs := some [("k", kv), ("fetch_k", fv), ("lambda_mult", lv)] }
      else if retStrat == .vstr "similarity" then
        match dict_get settings "k" with
        | .error e => .error e
        | .ok kv =>
          .ok { searchType := some retStrat, searchKwargs := some [("k", kv)] }
      else
        .ok { searchType := none, searchKwargs := none }

/-- The in-memory state of a `CodeMemoryPipeline` instance, together with
the persisted on-disk store (`persisted`, `none` when the persist
directory holds no collection).  `chain` is the attribute assigned only in
`_clear`. -/
structure PipelineState where
  retrievalSettings : List (String × PyVal)
  includeExt : List String
  vectorStore : Option Store
  retriever : Option Retriever
  chain : Option Retriever
  repoRoot : Option PyPath
  persisted : Option Store
  deriving DecidableEq, Repr

/-- The `RuntimeError("Call .ingest(<repo>) before updating files.")`
raised by `update_files`; `NotIngestedError` in the spec's taxonomy. -/
def NotIngestedError : PyError :=
  .runtimeError "Call .ingest(<repo>) before updating files."

/-- The `ValueError` raised when a path is outside the repo root;
`OutOfScopeError` in the spec's taxonomy. -/
def OutOfScopeError (p : PyPath) : PyError :=
  .valueError (absStr p ++ " is outside the ingested repository root")

/-- The path-normalisation loop of `update_files`: each (absolute,
resolved) path is made relative to the remembered repo root; the first
path not below the root raises; with the root unset (`None`),
`relative_to(None)` raises `TypeError` at the first path. -/
def normalise (root : Option PyPath) : List PyPath → Except PyError (List PyPath)
  | [] => .ok []
  | p :: ps =>
    match root with
    | none => .error .typeError
    | some r =>
      if r.isPrefixOf p then
        match normalise root ps with
        | .ok rest => .ok ((p.drop r.length) :: rest)
        | .error e => .error e
      else .error (OutOfScopeError p)

/-- The reload loop of `update_files`: for each normalised path, rebuild
the absolute path under the repo root, skip it when nothing exists there,
otherwise load it.  (With a `None` root this loop is unreachable for a
nonempty list, since normalisation raises first; `None / rel` would raise
`TypeError`.) -/
def update_load_docs (fs : List Entry) (root : Option PyPath) :
    List PyPath → Except PyError (List Doc)
  | [] => .ok []
  | rel :: rest =>
    match root with
    | none => .error .typeError
    | some r =>
      let absP := r ++ rel
      if pathExists fs absP then
        match load_single_file fs absP rel with
        | .error e => .error e
        | .ok ds =>
          match update_load_docs fs root rest with
          | .error e => .error e
          | .ok more => .ok (ds ++ more)
      else update_load_docs fs root rest

/-- `update_files`: guard on a loaded store, normalise all paths, delete
the old generation of every path, reload and re-chunk the still-existing
files, add them, rebuild the retriever.  The returned state is the
instance's state when the call returns or raises (mutations made before an
exception persist). -/
def update_files (splitContent : Doc → List String) (s : PipelineState)
    (fs : List Entry) (paths : List PyPath) : PipelineState × Except PyError Unit :=
  match s.vectorStore with
  | none => (s, .error NotIngestedError)
  | some vs =>
    match normalise s.repoRoot paths with
    | .error e => (s, .error e)
    | .ok rels =>
      let vs1 := rels.foldl (fun st rel => st.deleteWhereSource (relStr rel)) vs
      let s1 := { s with vectorStore := some vs1, persisted := some vs1 }
      match update_load_docs fs s.repoRoot rels with
      | .error e => (s1, .error e)
      | .ok docs =>
        let vs2 :=
          if docs.isEmpty then vs1
          else vs1 ++ length_filter (filterComplexMetadata (split_documents splitContent docs))
        let s2 := { s1 with vectorStore := some vs2, persisted := some vs2 }
        match build_chain s.retrievalSettings (some vs2) with
        | .error e => (s2, .error e)
        | .ok r => ({ s2 with retriever := some r }, .ok ())

/-- `ingest`: remember the repo root, walk it, chunk and filter, recreate
the persisted store from the chunk set, rebuild the retriever. -/
def ingest (splitContent : Doc → List String) (s : PipelineState)
    (fs : List Entry) (repoPath : PyPath) : PipelineState × Except PyError Unit :=
  if pathExists fs repoPath then
    let s1 := { s with repoRoot := some repoPath }
    let docs := load_repo s.includeExt fs repoPath
    let chunks := length_filter (filterComplexMetadata (split_documents splitContent docs))
    let s2 := { s1 with vectorStore := some chunks, persisted := some chunks }
    match build_chain s.retrievalSettings (some chunks) with
    | .error e => (s2, .error e)
    | .ok r => ({ s2 with retriever := some r }, .ok ())
  else (s, .error (.fileNotFoundError (absStr repoPath ++ " does not exist")))

/-- `clear` (via `_clear`): reset the in-memory handles only. -/
def clear (s : PipelineState) : PipelineState :=
  { s with vectorStore := none, retriever := none, chain := none, repoRoot := none }

/-- `set_retrieval_settings`: install the new settings, then rebuild the
retriever; a rebuild failure propagates after the settings were replaced. -/
def set_retrieval_settings (s : PipelineState) (newSettings : List (String × PyVal)) :
    PipelineState × Except PyError Unit :=
  let s1 := { s with retrievalSettings := newSettings }
  match build_chain newSettings s1.vectorStore with
  | .error e => (s1, .error e)
  | .ok r => ({ s1 with retriever := some r }, .ok ())

/-- `__init__`: start with empty handles; when the persist directory is
non-empty, try to open the persisted collection and build the retriever,
and on any exception fall back to empty handles.  `openFails` models an
exception from the `Chroma(...)` constructor (corrupt or incompatible
data). -/
def init_pipeline (settings : List (String × PyVal)) (includeExt : List String)
    (persisted : Option Store) (openFails : Bool) : PipelineState :=
  let base : PipelineState :=
    { retrievalSettings := settings, includeExt := includeExt,
      vectorStore := none, retriever := none, chain := none,
      repoRoot := none, persisted := persisted }
  match persisted with
  | none => base
  | some db =>
    if openFails then base
    else
      match build_chain settings (some db) with
      | .error _ => base
      | .ok r => { base with vectorStore := some db, retriever := some r }

/-- The default `retrieval_settings` of `__init__`. -/
def default_retrieval_settings : List (String × PyVal) :=
  [("ret_strat", .vstr "mmr"), ("k", .vint 6), ("fetch_k", .vint 20),
   ("lambda_mult", .vfloat (1 / 2))]

/-- The default `include_ext` of `__init__`. -/
def default_include_ext : List String :=
  [".md", ".rst", ".txt", ".json", ".toml", ".cfg", ".yaml", ".yml", ".py", ".rs"]

/-- A trivial concrete content splitter (one chunk per document), used to
instantiate the parametric chunker in concrete evaluations. -/
def demo_split (d : Doc) : List String := [d.content]

/-- A concrete chunk tagged with source `a.py`. -/
def demo_chunk : Chunk :=
  { content := "def foo(): pass", meta := [("source", .scalar (.vstr "a.py"))] }

/-- A concrete pipeline state with a loaded store and a remembered root. -/
def demo_state : PipelineState :=
  { retrievalSettings := default_retrieval_settings, includeExt := default_include_ext,
    vectorStore := some [demo_chunk], retriever := none, chain := none,
    repoRoot := some ["repo"], persisted := some [demo_chunk] }

/-- C8: `clear` sets the in-memory handles — the vector-store handle, the
retriever (together with the never-populated `chain` attribute) and the
remembered repo root — to `None`, and leaves everything else, in
particular the persisted on-disk store, unchanged. -/
theorem clear_clears_handles_only (s : PipelineState) :
    (clear s).vectorStore = none ∧ (clear s).retriever = none ∧
    (clear s).chain = none ∧ (clear s).repoRoot = none ∧
    (clear s).persisted = s.persisted ∧
    (clear s).retrievalSettings = s.retrievalSettings ∧
    (clear s).includeExt = s.includeExt := by
  simp [clear]

/-- C10: `set_retrieval_settings` with no vector store loaded fails with
the retriever-rebuild `RuntimeError`, but the new settings have already
replaced the old ones: the resulting state is exactly the old state with
only `retrieval_settings` swapped, so the next successful retriever build
uses the new settings. -/
theorem set_retrieval_settings_not_atomic (s : PipelineState)
    (newSettings : List (String × PyVal)) (h : s.vectorStore = none) :
    (set_retrieval_settings s newSettings).2 =
      .error (.runtimeError "Vector store must be initialised before building the retriever.") ∧
    (set_retrieval_settings s newSettings).1 = { s with retrievalSettings := newSettings } := by
  simp [set_retrieval_settings, build_chain, h]

/-- Witness for C10 at a concrete freshly-constructed state. -/
theorem set_retrieval_settings_not_atomic_witness :
    (set_retrieval_settings (init_pipeline default_retrieval_settings default_include_ext none false)
        [("ret_strat", .vstr "similarity"), ("k", .vint 4)]).2 =
      .error (.runtimeError "Vector store must be initialised before building the retriever.") ∧
    (set_retrieval_settings (init_pipeline default_retrieval_settings default_include_ext none false)
        [("ret_strat", .vstr "similarity"), ("k", .vint 4)]).1 =
      { init_pipeline default_retrieval_settings default_include_ext none false with
        retrievalSettings := [("ret_strat", .vstr "similarity"), ("k", .vint 4)] } :=
  set_retrieval_settings_not_atomic _ _ rfl

/-- C9: when the persist directory is non-empty and either opening the
persisted store or building the retriever raises, the exception is caught
and the instance starts in the `Empty` state: vector-store handle and
retriever both `None` (and no repo root remembered). -/
theorem init_restore_failure_falls_back
    (settings : List (String × PyVal)) (includeExt : List String)
    (db : Store) (openFails : Bool)
    (h : openFails = true ∨ ∃ e, build_chain settings (some db) = .error e) :
    (init_pipeline settings includeExt (some db) openFails).vectorStore = none ∧
    (init_pipeline settings includeExt (some db) openFails).retriever = none ∧
    (init_pipeline settings includeExt (some db) openFails).repoRoot = none := by
  rcases h with h | ⟨e, he⟩
  · simp [init_pipeline, h]
  · cases openFails
    · simp [init_pipeline, he]
    · simp [init_pipeline]

/-- Witness for C9: settings without a `ret_strat` key make the retriever
rebuild raise `KeyError` inside the restore path. -/
theorem init_restore_failure_falls_back_witness :
    (init_pipeline [] default_include_ext (some [demo_chunk]) false).vectorStore = none ∧
    (init_pipeline [] default_include_ext (some [demo_chunk]) false).retriever = none ∧
    (init_pipeline [] default_include_ext (some [demo_chunk]) false).repoRoot = none :=
  init_restore_failure_falls_back [] default_include_ext [demo_chunk] false
    (Or.inr ⟨.keyError "ret_strat", rfl⟩)

/-- C4: retriever build policy.  With tag `mmr` exactly `k`, `fetch_k` and
`lambda_mult` are passed as search kwargs; with tag `similarity` exactly
`k` is passed and `fetch_k`/`lambda_mult` never are; any other tag yields
a retriever with no strategy and no extra parameters instead of failing. -/
theorem retriever_build_policy :
    (∀ (rs : List (String × PyVal)) (vs : Store) (kv fv lv : PyVal),
      rs.lookup "ret_strat" = some (.vstr "mmr") → rs.lookup "k" = some kv →
      rs.lookup "fetch_k" = some fv → rs.lookup "lambda_mult" = some lv →
      build_chain rs (some vs) =
        .ok { searchType := some (.vstr "mmr"),
              searchKwargs := some [("k", kv), ("fetch_k", fv), ("lambda_mult", lv)] }) ∧
    (∀ (rs : List (String × PyVal)) (vs : Store) (kv : PyVal),
      rs.lookup "ret_strat" = some (.vstr "similarity") → rs.lookup "k" = some kv →
      build_chain rs (some vs) =
        .ok { searchType := some (.vstr "similarity"), searchKwargs := some [("k", kv)] }) ∧
    (∀ (rs : List (String × PyVal)) (vs : Store) (v : PyVal),
      rs.lookup "ret_strat" = some v → v ≠ .vstr "mmr" → v ≠ .vstr "similarity" →
      build_chain rs (some vs) = .ok { searchType := none, searchKwargs := none }) := by
  refine ⟨?_, ?_, ?_⟩
  · intro rs vs kv fv lv h1 h2 h3 h4
    simp [build_chain, dict_get, h1, h2, h3, h4]
  · intro rs vs kv h1 h2
    simp [build_chain, dict_get, h1, h2]
  · intro rs vs v h1 h2 h3
    simp [build_chain, dict_get, h1, h2, h3]

/-- Witness for C4: the three policy branches evaluated on concrete
settings dictionaries. -/
theorem retriever_build_policy_witness :
    build_chain default_retrieval_settings (some []) =
      .ok { searchType := some (.vstr "mmr"),
            searchKwargs := some [("k", .vint 6), ("fetch_k", .vint 20),
                                  ("lambda_mult", .vfloat (1 / 2))] } ∧
    build_chain [("ret_strat", .vstr "similarity"), ("k", .vint 4)] (some []) =
      .ok { searchType := some (.vstr "similarity"), searchKwargs := some [("k", .vint 4)] } ∧
    build_chain [("ret_strat", .vstr "cosine"), ("k", .vint 2)] (some []) =
      .ok { searchType := none, searchKwargs := none } :=
  ⟨retriever_build_policy.1 default_retrieval_settings [] _ _ _ rfl rfl rfl rfl,
   retriever_build_policy.2.1 [("ret_strat", .vstr "similarity"), ("k", .vint 4)] [] _ rfl rfl,
   retriever_build_policy.2.2 [("ret_strat", .vstr "cosine"), ("k", .vint 2)] [] _ rfl
     (by decide) (by decide)⟩

/-- A repository containing an eligible file inside the ignored `.venv`
directory. -/
def demo_fs_ignored : List Entry :=
  [.dir ["repo"], .dir ["repo", ".venv"], .file ["repo", ".venv", "hello.py"] "print(42)"]

/-- C2 (failing input): `ingest` on a repository whose only file is
`.venv/hello.py` ends with that file indexed — `rglob` yields the contents
of ignored directories and the loop's `continue` skips only the directory
entry itself, so files below ignored directories are loaded and indexed. -/
theorem ingest_indexes_file_inside_ignored_dir :
    ((ingest demo_split (init_pipeline default_retrieval_settings default_include_ext none false)
        demo_fs_ignored ["repo"]).1).vectorStore =
      some [{ content := "print(42)",
              meta := [("source", .scalar (.vstr ".venv/hello.py"))] }] := by
  rfl

/-- C3 (counterexample): on an instance whose store was restored from disk
at construction (no `ingest` ever ran, so the repo root is unset), `update`
does not fail with `NotIngestedError`: the `vector_store` guard passes and
the call dies with the `TypeError` from `relative_to(None)` instead. -/
theorem update_after_restore_is_not_not_ingested :
    ((update_files demo_split
        (init_pipeline default_retrieval_settings default_include_ext (some [demo_chunk]) false)
        [] [["repo", "a.py"]]).2 = .error .typeError) ∧
    PyError.typeError ≠ NotIngestedError :=
  ⟨rfl, by decide⟩

/-- C3 (amended): `update` fails with `NotIngestedError` (leaving the state
untouched) exactly in the states where the vector-store handle is `None`,
i.e. when neither an `ingest` nor a successful restore-from-disk has
supplied a store; when a store was restored at construction without any
`ingest`, the guard does not fire and a nonempty `update` call instead
raises `TypeError` because the repo root is unset. -/
theorem update_not_ingested_guard :
    (∀ (f : Doc → List String) (s : PipelineState) (fs : List Entry) (ps : List PyPath),
      s.vectorStore = none → update_files f s fs ps = (s, .error NotIngestedError)) ∧
    (∀ (f : Doc → List String) (settings : List (String × PyVal)) (ext : List String)
        (db : Store) (r : Retriever) (fs : List Entry) (p : PyPath) (ps : List PyPath),
      build_chain settings (some db) = .ok r →
      update_files f (init_pipeline settings ext (some db) false) fs (p :: ps) =
        (init_pipeline settings ext (some db) false, .error .typeError)) := by
  constructor
  · intro f s fs ps h
    simp [update_files, h]
  · intro f settings ext db r fs p ps hb
    simp [update_files, init_pipeline, hb, normalise]

/-- Witness for the amended C3 at concrete states: a fresh instance with
no store, and an instance restored from a non-empty persist directory. -/
theorem update_not_ingested_guard_witness :
    update_files demo_split (init_pipeline default_retrieval_settings default_include_ext none false)
        [] [["repo", "a.py"]] =
      (init_pipeline default_retrieval_settings default_include_ext none false,
       .error NotIngestedError) ∧
    update_files demo_split
        (init_pipeline default_retrieval_settings default_include_ext (some [demo_chunk]) false)
        [] [["repo", "a.py"]] =
      (init_pipeline default_retrieval_settings default_include_ext (some [demo_chunk]) false,
       .error .typeError) :=
  ⟨update_not_ingested_guard.1 demo_split _ [] [["repo", "a.py"]] rfl,
   update_not_ingested_guard.2 demo_split default_retrieval_settings default_include_ext
     [demo_chunk]
     { searchType := some (.vstr "mmr"),
       searchKwargs := some [("k", .vint 6), ("fetch_k", .vint 20),
                             ("lambda_mult", .vfloat (1 / 2))] }
     [] ["repo", "a.py"] [] rfl⟩

/-- A root is a prefix of any path below it. -/
lemma isPrefixOf_append_self (r t : PyPath) : r.isPrefixOf (r ++ t) = true := by
  simp [List.isPrefixOf_iff_prefix]

/-- A path with a file entry exists on disk. -/
lemma pathExists_of_lookupFile : ∀ {fs : List Entry} {p : PyPath} {c : String},
    lookupFile fs p = some c → pathExists fs p = true := by
  intro fs
  induction fs with
  | nil => intro p c h; simp [lookupFile] at h
  | cons e es ih =>
    intro p c h
    cases e with
    | file q c2 =>
      by_cases hq : (q == p) = true
      · simp [pathExists, Entry.path, hq]
      · rw [lookupFile, if_neg hq] at h
        simp [pathExists] at ih ⊢
        exact Or.inr (ih h)
    | dir q =>
      rw [lookupFile] at h
      simp [pathExists] at ih ⊢
      exact Or.inr (ih h)

/-- Membership survives a delete backwards: deleted stores only shrink. -/
lemma mem_of_mem_deleteWhereSource {ch : Chunk} {vs : Store} {s : String}
    (h : ch ∈ vs.deleteWhereSource s) : ch ∈ vs :=
  (List.mem_filter.mp h).1

/-- Membership after the whole delete loop implies prior membership. -/
lemma mem_of_mem_foldl_delete {ch : Chunk} :
    ∀ {rels : List PyPath} {vs : Store},
      ch ∈ rels.foldl (fun st rel => st.deleteWhereSource (relStr rel)) vs → ch ∈ vs := by
  intro rels
  induction rels with
  | nil => intro vs h; simpa using h
  | cons r rs ih =>
    intro vs h
    rw [List.foldl_cons] at h
    exact mem_of_mem_deleteWhereSource (ih h)

/-- Chunks surviving the length post-filter have trimmed length above 3. -/
lemma gt_three_of_mem_length_filter {ch : Chunk} {cs : List Chunk}
    (h : ch ∈ length_filter cs) : 3 < (py_strip ch.content).length := by
  have := (List.mem_filter.mp h).2
  simpa using this

/-- Deleting a source leaves no chunk tagged with it. -/
lemma filter_sourceIs_deleteWhereSource (vs : Store) (s : String) :
    (vs.deleteWhereSource s).filter (fun c => c.sourceIs s) = [] := by
  rw [Store.deleteWhereSource, List.filter_filter]
  simp

/-- Every chunk produced for a single loaded file carries that file's
relative path as its `source` metadatum. -/
lemma sourceIs_of_mem_chunksOf {f : Doc → List String} {rel : PyPath} {c : String} {ch : Chunk}
    (h : ch ∈ length_filter (filterComplexMetadata (split_documents f [mk_doc rel c]))) :
    ch.sourceIs (relStr rel) = true := by
  have h1 : ch ∈ filterComplexMetadata (split_documents f [mk_doc rel c]) :=
    (List.mem_filter.mp h).1
  simp only [filterComplexMetadata, List.mem_map] at h1
  obtain ⟨y, hy, hch⟩ := h1
  simp only [split_documents, List.mem_flatMap, List.mem_singleton, List.mem_map] at hy
  obtain ⟨d, hd, t, ht, hy2⟩ := hy
  subst hd
  subst hy2
  subst hch
  simp [Chunk.sourceIs, mk_doc, MVal.isSimple]

/-- The single-file chunk set is invariant under filtering on its own
source tag. -/
lemma filter_sourceIs_chunksOf (f : Doc → List String) (rel : PyPath) (c : String) :
    (length_filter (filterComplexMetadata (split_documents f [mk_doc rel c]))).filter
        (fun ch => ch.sourceIs (relStr rel)) =
      length_filter (filterComplexMetadata (split_documents f [mk_doc rel c])) :=
  List.filter_eq_self.mpr (fun _ hch => sourceIs_of_mem_chunksOf hch)

/-- Normalisation raises at the first path outside the root. -/
lemma normalise_error_of_bad (root : PyPath) :
    ∀ ps : List PyPath, (∃ p ∈ ps, root.isPrefixOf p = false) →
      ∃ q ∈ ps, root.isPrefixOf q = false ∧
        normalise (some root) ps = .error (OutOfScopeError q) := by
  intro ps
  induction ps with
  | nil => rintro ⟨p, hp, _⟩; cases hp
  | cons p ps ih =>
    rintro ⟨p₀, hp₀, hbad⟩
    by_cases hp : root.isPrefixOf p = true
    · have hrest : ∃ q ∈ ps, root.isPrefixOf q = false := by
        rcases List.mem_cons.mp hp₀ with rfl | hmem
        · rw [hp] at hbad; cases hbad
        · exact ⟨p₀, hmem, hbad⟩
      obtain ⟨q, hq, hqbad, hrec⟩ := ih hrest
      refine ⟨q, List.mem_cons_of_mem _ hq, hqbad, ?_⟩
      simp [normalise, hp, hrec]
    · refine ⟨p, List.mem_cons_self _ _, Bool.eq_false_iff.mpr hp, ?_⟩
      simp [normalise, hp]

/-- C7: a path resolving outside the remembered repo root makes `update`
fail with `OutOfScopeError` naming an out-of-scope path, and the failure
is fatal to that call only: the state is left untouched. -/
theorem update_out_of_scope
    (f : Doc → List String) (s : PipelineState) (vs : Store) (root : PyPath)
    (fs : List Entry) (ps : List PyPath)
    (hvs : s.vectorStore = some vs) (hroot : s.repoRoot = some root)
    (hbad : ∃ p ∈ ps, root.isPrefixOf p = false) :
    (update_files f s fs ps).1 = s ∧
    ∃ q ∈ ps, root.isPrefixOf q = false ∧
      (update_files f s fs ps).2 = .error (OutOfScopeError q) := by
  obtain ⟨q, hq, hqbad, hnorm⟩ := normalise_error_of_bad root ps hbad
  refine ⟨?_, q, hq, hqbad, ?_⟩ <;> simp [update_files, hvs, hroot, hnorm]

/-- Witness for C7: updating a path outside `/repo` on a live instance. -/
theorem update_out_of_scope_witness :
    (update_files demo_split demo_state [] [["etc", "passwd"]]).1 = demo_state ∧
    ∃ q ∈ [["etc", "passwd"]], ["repo"].isPrefixOf q = false ∧
      (update_files demo_split demo_state [] [["etc", "passwd"]]).2 =
        .error (OutOfScopeError q) :=
  update_out_of_scope demo_split demo_state [demo_chunk] ["repo"] [] [["etc", "passwd"]]
    rfl rfl ⟨["etc", "passwd"], List.mem_singleton.mpr rfl, by decide⟩

/-- C5: a path whose file no longer exists on disk is a pure deletion:
`update` removes every chunk tagged with that path, inserts nothing for
it, and the call succeeds. -/
theorem update_missing_file_pure_deletion
    (f : Doc → List String) (s : PipelineState) (vs : Store) (root rel : PyPath)
    (fs : List Entry)
    (hvs : s.vectorStore = some vs) (hroot : s.repoRoot = some root)
    (hmiss : pathExists fs (root ++ rel) = false)
    (hb : ∃ r, build_chain s.retrievalSettings
        (some (vs.deleteWhereSource (relStr rel))) = .ok r) :
    (update_files f s fs [root ++ rel]).2 = .ok () ∧
    ((update_files f s fs [root ++ rel]).1).vectorStore =
      some (vs.deleteWhereSource (relStr rel)) := by
  obtain ⟨r, hr⟩ := hb
  have hnorm : normalise s.repoRoot [root ++ rel] = .ok [rel] := by
    simp [normalise, hroot, isPrefixOf_append_self, List.drop_left]
  have hload : update_load_docs fs s.repoRoot [rel] = .ok [] := by
    simp [update_load_docs, hroot, hmiss]
  constructor <;> simp [update_files, hvs, hnorm, hload, hr]

/-- Witness for C5: deleting `b.py` when nothing exists on disk. -/
theorem update_missing_file_pure_deletion_witness :
    (update_files demo_split demo_state [] [["repo"] ++ ["b.py"]]).2 = .ok () ∧
    ((update_files demo_split demo_state [] [["repo"] ++ ["b.py"]]).1).vectorStore =
      some (Store.deleteWhereSource [demo_chunk] "b.py") :=
  update_missing_file_pure_deletion demo_split demo_state [demo_chunk] ["repo"] ["b.py"] []
    rfl rfl rfl
    ⟨{ searchType := some (.vstr "mmr"),
       searchKwargs := some [("k", .vint 6), ("fetch_k", .vint 20),
                             ("lambda_mult", .vfloat (1 / 2))] }, rfl⟩

/-- Effect of `update_files` on a single path whose file exists: the old
generation of chunks for that path is deleted and the fresh chunking of
the file's current content is appended, whether or not the final
retriever rebuild succeeds. -/
lemma update_files_single_existing
    (f : Doc → List String) (s : PipelineState) (vs : Store) (root rel : PyPath)
    (fs : List Entry) (c : String)
    (hvs : s.vectorStore = some vs) (hroot : s.repoRoot = some root)
    (hfile : lookupFile fs (root ++ rel) = some c) :
    ((update_files f s fs [root ++ rel]).1).vectorStore =
        some (vs.deleteWhereSource (relStr rel) ++
          length_filter (filterComplexMetadata (split_documents f [mk_doc rel c]))) ∧
    ((update_files f s fs [root ++ rel]).1).repoRoot = some root := by
  have hex := pathExists_of_lookupFile hfile
  have hnorm : normalise s.repoRoot [root ++ rel] = .ok [rel] := by
    simp [normalise, hroot, isPrefixOf_append_self, List.drop_left]
  have hload : update_load_docs fs s.repoRoot [rel] = .ok [mk_doc rel c] := by
    simp [update_load_docs, hroot, hex, load_single_file, hfile]
  constructor <;>
    · simp only [update_files, hvs, hnorm, hload, List.foldl_cons, List.foldl_nil,
        List.isEmpty_cons]
      split <;> simp [hroot]

/-- C1: on an instance with a loaded store and remembered root, updating
the same (existing, changed) file twice in a row leaves, among the chunks
tagged with that file's path, exactly the chunks of the second chunking of
the file — never the union of both generations: each update deletes every
chunk tagged with the normalized path before inserting the new ones. -/
theorem update_twice_keeps_single_generation
    (f : Doc → List String) (s : PipelineState) (vs : Store) (root rel : PyPath)
    (fs : List Entry) (c : String)
    (hvs : s.vectorStore = some vs) (hroot : s.repoRoot = some root)
    (hfile : lookupFile fs (root ++ rel) = some c) :
    ∃ vsFinal,
      ((update_files f (update_files f s fs [root ++ rel]).1 fs [root ++ rel]).1).vectorStore
        = some vsFinal ∧
      vsFinal.filter (fun ch => ch.sourceIs (relStr rel)) =
        length_filter (filterComplexMetadata (split_documents f [mk_doc rel c])) := by
  obtain ⟨h1, h2⟩ := update_files_single_existing f s vs root rel fs c hvs hroot hfile
  obtain ⟨g1, _⟩ := update_files_single_existing f _ _ root rel fs c h1 h2 hfile
  refine ⟨_, g1, ?_⟩
  rw [List.filter_append, filter_sourceIs_deleteWhereSource, filter_sourceIs_chunksOf,
    List.nil_append]

/-- Witness for C1: two consecutive updates of the same concrete file. -/
theorem update_twice_keeps_single_generation_witness :
    ∃ vsFinal,
      ((update_files demo_split
          (update_files demo_split demo_state
            [.dir ["repo"], .file ["repo", "a.py"] "def foo(): return 1"]
            [["repo"] ++ ["a.py"]]).1
          [.dir ["repo"], .file ["repo", "a.py"] "def foo(): return 1"]
          [["repo"] ++ ["a.py"]]).1).vectorStore = some vsFinal ∧
      vsFinal.filter (fun ch => ch.sourceIs (relStr ["a.py"])) =
        length_filter (filterComplexMetadata
          (split_documents demo_split [mk_doc ["a.py"] "def foo(): return 1"])) :=
  update_twice_keeps_single_generation demo_split demo_state [demo_chunk] ["repo"] ["a.py"]
    [.dir ["repo"], .file ["repo", "a.py"] "def foo(): return 1"] "def foo(): return 1"
    rfl rfl rfl

/-- C6: the length post-filter guarantee: starting from a store whose
chunks all have trimmed content length above 3, both `update_files` and
`ingest` leave a store whose chunks all have trimmed content length above
3 — every chunk added to the store passed the `len(strip) > 3` filter. -/
theorem store_chunks_longer_than_three
    (f : Doc → List String) (s : PipelineState) (fs : List Entry)
    (ps : List PyPath) (rp : PyPath)
    (h : ∀ vs, s.vectorStore = some vs → ∀ ch ∈ vs, 3 < (py_strip ch.content).length) :
    (∀ vs', ((update_files f s fs ps).1).vectorStore = some vs' →
      ∀ ch ∈ vs', 3 < (py_strip ch.content).length) ∧
    (∀ vs', ((ingest f s fs rp).1).vectorStore = some vs' →
      ∀ ch ∈ vs', 3 < (py_strip ch.content).length) := by
  constructor
  · intro vs' hvs' ch hch
    cases hsv : s.vectorStore with
    | none => simp [update_files, hsv] at hvs'
    | some vs =>
      simp only [update_files, hsv] at hvs'
      cases hn : normalise s.repoRoot ps with
      | error e =>
        simp only [hn] at hvs'
        simp [hsv] at hvs'
        subst hvs'
        exact h vs hsv ch hch
      | ok rels =>
        simp only [hn] at hvs'
        cases hl : update_load_docs fs s.repoRoot rels with
        | error e =>
          simp only [hl] at hvs'
          simp at hvs'
          subst hvs'
          exact h vs hsv ch (mem_of_mem_foldl_delete hch)
        | ok docs =>
          simp only [hl] at hvs'
          by_cases hde : docs.isEmpty = true
          · simp only [hde, if_true] at hvs'
            split at hvs' <;>
            · simp at hvs'
              subst hvs'
              exact h vs hsv ch (mem_of_mem_foldl_delete hch)
          · simp only [hde, if_false] at hvs'
            split at hvs' <;>
            · simp at hvs'
              subst hvs'
              rcases List.mem_append.mp hch with hch1 | hch2
              · exact h vs hsv ch (mem_of_mem_foldl_delete hch1)
              · exact gt_three_of_mem_length_filter hch2
  · intro vs' hvs' ch hch
    simp only [ingest] at hvs'
    split at hvs'
    · split at hvs' <;>
      · simp at hvs'
        subst hvs'
        exact gt_three_of_mem_length_filter hch
    · simp at hvs'
      exact h vs' hvs' ch hch

/-- A repository with one ordinary Python file, for concrete runs. -/
def demo_fs_update : List Entry :=
  [.dir ["repo"], .file ["repo", "a.py"] "def foo(): return 1"]

/-- Witness for C6 on a concrete state, filesystem and path list. -/
theorem store_chunks_longer_than_three_witness :
    (∀ vs', ((update_files demo_split demo_state demo_fs_update
        [["repo", "a.py"]]).1).vectorStore = some vs' →
      ∀ ch ∈ vs', 3 < (py_strip ch.content).length) ∧
    (∀ vs', ((ingest demo_split demo_state demo_fs_update ["repo"]).1).vectorStore = some vs' →
      ∀ ch ∈ vs', 3 < (py_strip ch.content).length) :=
  store_chunks_longer_than_three demo_split demo_state demo_fs_update
    [["repo", "a.py"]] ["repo"]
    (by intro vs hv ch hch
        simp [demo_state] at hv
        subst hv
        simp at hch
        subst hch
        decide)

end Aqchat
